import Mathlib

/-!
# Verification of the next-passkey-webauthn server core

A shallow embedding of the server-side WebAuthn flow controllers
(`server/register.ts`, `server/authenticate.ts`, `server/delete.ts`),
the challenge stores (`store/redis.ts`, in-memory store), and the data
model (`types/index.ts`), together with theorems settling the spec's
claims about them.

External collaborators (the `@simplewebauthn/server` cryptographic
verifier and the credential adapters) are modelled as oracle inputs:
each verifier call is an `Except Nat …` value (`.error t` models the
call throwing a non-`PasskeyError` exception tagged `t`), and the
fallible adapter/store lookups take an `Option Nat` fault-injection
parameter with the same meaning.  Store and adapter state is threaded
explicitly; a trace of externally observable events is returned so
that "the verifier was never invoked" and "no record was written"
become statements about the run.
-/

namespace Passkey

/-- WebAuthn flow types (`types/index.ts`: `Flow`). -/
inductive Flow where
  | registration
  | authentication
deriving DecidableEq, Repr

/-- String form of a flow, as used in challenge keys. -/
def Flow.toStr : Flow → String
  | .registration => "registration"
  | .authentication => "authentication"

/-- `types/index.ts`: `AuthenticatorAttachment = "platform" | "cross-platform"`. -/
inductive AuthenticatorAttachment where
  | platform
  | crossPlatform
deriving DecidableEq, Repr

/-- `types/index.ts`: `PasskeyDeviceInfo` (all fields optional). -/
structure PasskeyDeviceInfo where
  deviceType : Option String
  os : Option String
  browser : Option String
  nickname : Option String
deriving DecidableEq, Repr

/-- `types/index.ts`: `StoredCredential`.  The store-assigned timestamp
metadata (`createdAt`/`updatedAt`/`lastUsedAt`) is inert for every flow
modelled here and is omitted. -/
structure StoredCredential where
  id : String
  userId : String
  credentialId : String
  publicKey : String
  counter : Nat
  transports : Option (List String)
  userName : Option String
  userDisplayName : Option String
  authenticatorAttachment : Option AuthenticatorAttachment
  deviceInfo : Option PasskeyDeviceInfo
  backupEligible : Option Bool
  backupState : Option Bool
deriving DecidableEq, Repr

/-- `types/index.ts`: `ChallengeRecord`. -/
structure ChallengeRecord where
  id : String
  userId : String
  flow : Flow
  challenge : String
  expiresAt : Nat
deriving DecidableEq, Repr

/-- `types/index.ts`: `PasskeyManagementOptions`. -/
structure PasskeyManagementOptions where
  maxPasskeysPerUser : Option Nat
  preventDuplicateAuthenticators : Option Bool
deriving DecidableEq, Repr

/-- `types/index.ts`: `RegistrationStartOptions` extended with the
`deviceInfo`/`managementOptions` fields taken by `register.ts`. -/
structure RegistrationStartOptions where
  userName : Option String
  userDisplayName : Option String
  timeout : Option Nat
  deviceInfo : Option PasskeyDeviceInfo
  managementOptions : Option PasskeyManagementOptions
deriving DecidableEq, Repr

/-- `types/index.ts`: user verification requirement union type. -/
inductive UserVerification where
  | required
  | preferred
  | discouraged
deriving DecidableEq, Repr

/-- `types/index.ts`: `AuthenticationStartOptions`. -/
structure AuthenticationStartOptions where
  timeout : Option Nat
  userVerification : Option UserVerification
deriving DecidableEq, Repr

/-- `types/index.ts`: `ErrorCodes`, the six-way error taxonomy. -/
inductive ErrorCode where
  | challengeNotFound
  | challengeExpired
  | credentialNotFound
  | verificationFailed
  | invalidInput
  | storageError
deriving DecidableEq, Repr

/-- `types/index.ts`: `PasskeyError` (the `details` payload is dropped). -/
structure PasskeyError where
  message : String
  code : ErrorCode
deriving DecidableEq, Repr

/-- A thrown JavaScript value: either a `PasskeyError` or some other
exception (identified by a tag). -/
inductive Thrown where
  | passkey (e : PasskeyError)
  | other (tag : Nat)
deriving DecidableEq, Repr

instance {ε α : Type} [DecidableEq ε] [DecidableEq α] : DecidableEq (Except ε α)
  | .error a, .error b =>
    if h : a = b then .isTrue (by rw [h])
    else .isFalse (by intro hc; cases hc; exact h rfl)
  | .error _, .ok _ => .isFalse (by intro hc; cases hc)
  | .ok _, .error _ => .isFalse (by intro hc; cases hc)
  | .ok a, .ok b =>
    if h : a = b then .isTrue (by rw [h])
    else .isFalse (by intro hc; cases hc; exact h rfl)

/-! ## Challenge store state

The challenge store is a key-value map from `"{userId}:{flow}"` keys to
records, as in the in-memory store's `Map`.  `getRecord` returns the raw
stored record (an expired record is still returned, modelling a backing
store whose TTL has not evicted it yet); the in-memory store's
read-time expiry filtering is `MemoryStore.get` below. -/

abbrev ChallengeMap := List (String × ChallengeRecord)

/-- Challenge key `"{userId}:{flow}"`. -/
def challengeKey (userId : String) (flow : Flow) : String :=
  userId ++ ":" ++ flow.toStr

/-- `MemoryStore.set`: `Map.set` replace semantics. -/
def ChallengeMap.setRecord (s : ChallengeMap) (r : ChallengeRecord) : ChallengeMap :=
  (challengeKey r.userId r.flow, r) ::
    s.filter (fun p => p.1 ≠ challengeKey r.userId r.flow)

/-- Raw keyed lookup in the challenge store. -/
def ChallengeMap.getRecord (s : ChallengeMap) (userId : String) (flow : Flow) :
    Option ChallengeRecord :=
  (s.find? (fun p => p.1 = challengeKey userId flow)).map (fun p => p.2)

/-- `MemoryStore.delete` / `Map.delete`. -/
def ChallengeMap.deleteRecord (s : ChallengeMap) (userId : String) (flow : Flow) :
    ChallengeMap :=
  s.filter (fun p => p.1 ≠ challengeKey userId flow)

/-- `store/memory.ts` `MemoryStore.get`: returns `null` for a missing
record; deletes and returns `null` for an expired one (read-time expiry
check); otherwise returns the record.  Result: (updated store, result). -/
def MemoryStore.get (s : ChallengeMap) (now : Nat) (userId : String) (flow : Flow) :
    ChallengeMap × Option ChallengeRecord :=
  match s.getRecord userId flow with
  | none => (s, none)
  | some record =>
    if now > record.expiresAt then (s.deleteRecord userId flow, none)
    else (s, some record)

/-! ## Credential adapter state -/

abbrev CredentialList := List StoredCredential

/-- `PasskeyAdapter.findByCredentialId`. -/
def findByCredentialId (creds : CredentialList) (credentialId : String) :
    Option StoredCredential :=
  creds.find? (fun c => c.credentialId = credentialId)

/-- `PasskeyAdapter.listUserPasskeys`. -/
def adapterListUserPasskeys (creds : CredentialList) (userId : String) :
    CredentialList :=
  creds.filter (fun c => c.userId = userId)

/-- `PasskeyAdapter.updateCounter`. -/
def updateCounter (creds : CredentialList) (id : String) (counter : Nat) :
    CredentialList :=
  creds.map (fun c => if c.id = id then { c with counter := counter } else c)

/-- `PasskeyAdapter.createPasskey` (row insertion; the store-assigned
`id` is passed in as `freshId` by the callers below). -/
def createPasskey (creds : CredentialList) (c : StoredCredential) : CredentialList :=
  creds ++ [c]

/-! ## Verifier result shapes (`@simplewebauthn/server` boundary) -/

/-- The `credential` sub-object of `verifyRegistrationResponse`'s
`registrationInfo` (`publicKey` bytes are modelled by their base64url
text form, matching how `finishRegistration` persists them). -/
structure RegistrationInfoCredential where
  id : String
  publicKey : String
  counter : Nat
  transports : Option (List String)
deriving DecidableEq, Repr

/-- `verifyRegistrationResponse` result's `registrationInfo`. -/
structure RegistrationInfo where
  credential : RegistrationInfoCredential
  credentialBackedUp : Bool
  credentialDeviceType : String
deriving DecidableEq, Repr

/-- `verifyRegistrationResponse` result. -/
structure RegistrationVerification where
  verified : Bool
  registrationInfo : Option RegistrationInfo
deriving DecidableEq, Repr

/-- `verifyAuthenticationResponse` result (`authenticationInfo.newCounter`). -/
structure AuthenticationVerification where
  verified : Bool
  newCounter : Nat
deriving DecidableEq, Repr

/-! ## Requested authentication options (C6) -/

/-- One entry of the `allowCredentials` list passed to
`generateAuthenticationOptions`. -/
structure AllowCredentialDescriptor where
  id : String
  transports : Option (List String)
deriving DecidableEq, Repr

/-- The options object handed to `generateAuthenticationOptions` by
`startAuthentication` (`webAuthnOptions`). -/
structure AuthRequestOptions where
  rpID : String
  timeout : Nat
  userVerification : UserVerification
  allowCredentials : Option (List AllowCredentialDescriptor)
deriving DecidableEq, Repr

/-! ## Observable events of a run -/

/-- Externally observable calls made during a run, in order. -/
inductive Event where
  | generateRegistrationCall
  | generateAuthenticationCall (opts : AuthRequestOptions)
  | verifyRegistrationCall
  | verifyAuthenticationCall
  | challengeSet (r : ChallengeRecord)
  | challengeDelete (userId : String) (flow : Flow)
  | counterUpdate (id : String) (counter : Nat)
  | credentialCreate (c : StoredCredential)
deriving DecidableEq, Repr

/-- Result value of the `Finish*` entry points
(`{ verified: boolean; credential?: StoredCredential }`). -/
structure FinishResult where
  verified : Bool
  credential : Option StoredCredential
deriving DecidableEq, Repr

/-- Full outcome of a `Finish*` run: result, final challenge-store and
credential-store states, and the event trace. -/
structure FinishOut where
  result : Except PasskeyError FinishResult
  store : ChallengeMap
  credentials : CredentialList
  events : List Event
deriving DecidableEq, Repr

/-! ## finishAuthentication (`server/authenticate.ts`)

The `try` body, then the wrapper applying the `catch` logic
(best-effort challenge cleanup, rethrow of `PasskeyError`s, re-wrap of
anything else as `VERIFICATION_FAILED`). -/

/-- The `try` body of `finishAuthentication`.  `respId` is
`credential.id` from the browser response; `findFault` injects a thrown
exception into `adapter.findByCredentialId`; `verify` is the outcome of
`verifyAuthenticationResponse` (`.error t` models it throwing). -/
def finishAuthenticationBody (now : Nat) (userId respId : String)
    (findFault : Option Nat) (verify : Except Nat AuthenticationVerification)
    (store : ChallengeMap) (creds : CredentialList) :
    Except Thrown FinishResult × ChallengeMap × CredentialList × List Event :=
  match store.getRecord userId .authentication with
  | none =>
    (.error (.passkey ⟨"Challenge not found or expired", .challengeNotFound⟩),
      store, creds, [])
  | some challengeRecord =>
    if now > challengeRecord.expiresAt then
      (.error (.passkey ⟨"Challenge expired", .challengeExpired⟩),
        store.deleteRecord userId .authentication, creds,
        [.challengeDelete userId .authentication])
    else
      match findFault with
      | some t => (.error (.other t), store, creds, [])
      | none =>
        match findByCredentialId creds respId with
        | none =>
          (.error (.passkey ⟨"Credential not found", .credentialNotFound⟩),
            store.deleteRecord userId .authentication, creds,
            [.challengeDelete userId .authentication])
        | some storedCredential =>
          if storedCredential.userId ≠ userId then
            (.error (.passkey ⟨"Credential does not belong to user", .verificationFailed⟩),
              store.deleteRecord userId .authentication, creds,
              [.challengeDelete userId .authentication])
          else
            match verify with
            | .error t =>
              (.error (.other t), store, creds, [.verifyAuthenticationCall])
            | .ok verification =>
              let store1 := store.deleteRecord userId .authentication
              let ev1 := [Event.verifyAuthenticationCall,
                          .challengeDelete userId .authentication]
              if !verification.verified then
                (.error (.passkey ⟨"Authentication verification failed", .verificationFailed⟩),
                  store1, creds, ev1)
              else
                let newCounter := verification.newCounter
                if newCounter > storedCredential.counter then
                  (.ok ⟨true, some { storedCredential with counter := newCounter }⟩,
                    store1, updateCounter creds storedCredential.id newCounter,
                    ev1 ++ [.counterUpdate storedCredential.id newCounter])
                else
                  (.ok ⟨true, some storedCredential⟩, store1, creds, ev1)

/-- `finishAuthentication`: body plus the `catch` block, which
best-effort deletes the challenge and re-wraps non-`PasskeyError`
exceptions as `VERIFICATION_FAILED`. -/
def finishAuthentication (now : Nat) (userId respId : String)
    (findFault : Option Nat) (verify : Except Nat AuthenticationVerification)
    (store : ChallengeMap) (creds : CredentialList) : FinishOut :=
  match finishAuthenticationBody now userId respId findFault verify store creds with
  | (.ok v, s, c, ev) => ⟨.ok v, s, c, ev⟩
  | (.error e, s, c, ev) =>
    let s1 := s.deleteRecord userId .authentication
    let ev1 := ev ++ [.challengeDelete userId .authentication]
    match e with
    | .passkey pe => ⟨.error pe, s1, c, ev1⟩
    | .other _ =>
      ⟨.error ⟨"Failed to finish authentication", .verificationFailed⟩, s1, c, ev1⟩

/-! ## finishRegistration (`server/register.ts`) -/

/-- The attachment classification of `register.ts` (lines 169-195):
`"internal"` transport, `credentialDeviceType === "singleDevice"`, or a
known platform-device `(os, deviceType)` signature each classify the
new credential as `platform`; everything else is `cross-platform`. -/
def classifyAttachment (transports : Option (List String))
    (credentialDeviceType : String) (deviceInfo : Option PasskeyDeviceInfo) :
    AuthenticatorAttachment :=
  let hasInternalTransport : Bool :=
    match transports with
    | some ts => ts.contains "internal"
    | none => false
  let isSingleDevice : Bool := credentialDeviceType == "singleDevice"
  let isPlatformDevice : Bool :=
    match deviceInfo with
    | some d =>
      (d.os == some "macOS" && d.deviceType == some "Mac") ||
      (d.os == some "iOS" &&
        (d.deviceType == some "iPhone" || d.deviceType == some "iPad")) ||
      (d.os == some "iPadOS" && d.deviceType == some "iPad") ||
      (d.os == some "Windows" && d.deviceType == some "Windows PC")
    | none => false
  if hasInternalTransport || isSingleDevice || isPlatformDevice then .platform
  else .crossPlatform

/-- The `isDuplicate` callback of `register.ts` (lines 208-229): an
existing credential conflicts when both it and the new credential are
platform-classified and either the recorded and supplied device infos
agree on `(deviceType, os)`, or device info is missing on either side. -/
def isDuplicateOf (attachment : AuthenticatorAttachment)
    (newDeviceInfo : Option PasskeyDeviceInfo) (existing : StoredCredential) : Bool :=
  if existing.authenticatorAttachment == some .platform &&
      attachment == AuthenticatorAttachment.platform then
    match existing.deviceInfo, newDeviceInfo with
    | some edi, some ndi => edi.deviceType == ndi.deviceType && edi.os == ndi.os
    | _, _ => true
  else false

/-- The duplicate-authenticator `INVALID_INPUT` message built by
`register.ts` from the supplied device info. -/
def dupMessage (di : Option PasskeyDeviceInfo) : String :=
  let deviceName :=
    match di.bind (fun d => d.deviceType) with
    | some dt => if dt = "" then "this device" else dt
    | none => "this device"
  "You already have a passkey on " ++ deviceName ++
    ". Each device can only have one passkey."

/-- The `try` body of `finishRegistration`.  `verify` is the outcome of
`verifyRegistrationResponse`; `findFault`/`listFault` inject thrown
exceptions into `adapter.findByCredentialId`/`adapter.listUserPasskeys`;
`freshId` is the row id the adapter assigns on creation. -/
def finishRegistrationBody (now : Nat) (userId : String)
    (regOpts : Option RegistrationStartOptions) (freshId : String)
    (findFault listFault : Option Nat)
    (verify : Except Nat RegistrationVerification)
    (store : ChallengeMap) (creds : CredentialList) :
    Except Thrown FinishResult × ChallengeMap × CredentialList × List Event :=
  match store.getRecord userId .registration with
  | none =>
    (.error (.passkey ⟨"Challenge not found or expired", .challengeNotFound⟩),
      store, creds, [])
  | some challengeRecord =>
    if now > challengeRecord.expiresAt then
      (.error (.passkey ⟨"Challenge expired", .challengeExpired⟩),
        store.deleteRecord userId .registration, creds,
        [.challengeDelete userId .registration])
    else
      match verify with
      | .error t => (.error (.other t), store, creds, [.verifyRegistrationCall])
      | .ok verification =>
        let store1 := store.deleteRecord userId .registration
        let ev1 := [Event.verifyRegistrationCall,
                    .challengeDelete userId .registration]
        match verification.verified, verification.registrationInfo with
        | true, some info =>
          match findFault with
          | some t => (.error (.other t), store1, creds, ev1)
          | none =>
            match findByCredentialId creds info.credential.id with
            | some _ =>
              (.error (.passkey ⟨"Credential already registered", .invalidInput⟩),
                store1, creds, ev1)
            | none =>
              let attachment := classifyAttachment info.credential.transports
                info.credentialDeviceType (regOpts.bind (fun o => o.deviceInfo))
              let shouldPreventDuplicates : Bool :=
                (((regOpts.bind (fun o => o.managementOptions)).bind
                    (fun m => m.preventDuplicateAuthenticators)) != some false) &&
                  attachment == AuthenticatorAttachment.platform
              let persist : Except Thrown FinishResult × ChallengeMap ×
                  CredentialList × List Event :=
                let newCred : StoredCredential :=
                  { id := freshId
                    userId := userId
                    credentialId := info.credential.id
                    publicKey := info.credential.publicKey
                    counter := info.credential.counter
                    transports := info.credential.transports
                    userName := regOpts.bind (fun o => o.userName)
                    userDisplayName := regOpts.bind (fun o => o.userDisplayName)
                    authenticatorAttachment := some attachment
                    deviceInfo := regOpts.bind (fun o => o.deviceInfo)
                    backupEligible := some info.credentialBackedUp
                    backupState := some info.credentialBackedUp }
                (.ok ⟨true, some newCred⟩, store1, createPasskey creds newCred,
                  ev1 ++ [.credentialCreate newCred])
              if shouldPreventDuplicates then
                match listFault with
                | some t => (.error (.other t), store1, creds, ev1)
                | none =>
                  let existingCredentials := adapterListUserPasskeys creds userId
                  let isDuplicate := existingCredentials.any
                    (isDuplicateOf attachment (regOpts.bind (fun o => o.deviceInfo)))
                  if isDuplicate then
                    (.error (.passkey
                        ⟨dupMessage (regOpts.bind (fun o => o.deviceInfo)),
                          .invalidInput⟩),
                      store1, creds, ev1)
                  else persist
              else persist
        | _, _ =>
          (.error (.passkey ⟨"Registration verification failed", .verificationFailed⟩),
            store1, creds, ev1)

/-- `finishRegistration`: body plus the `catch` block (best-effort
challenge cleanup; non-`PasskeyError` exceptions re-wrapped as
`VERIFICATION_FAILED`). -/
def finishRegistration (now : Nat) (userId : String)
    (regOpts : Option RegistrationStartOptions) (freshId : String)
    (findFault listFault : Option Nat)
    (verify : Except Nat RegistrationVerification)
    (store : ChallengeMap) (creds : CredentialList) : FinishOut :=
  match finishRegistrationBody now userId regOpts freshId findFault listFault
      verify store creds with
  | (.ok v, s, c, ev) => ⟨.ok v, s, c, ev⟩
  | (.error e, s, c, ev) =>
    let s1 := s.deleteRecord userId .registration
    let ev1 := ev ++ [.challengeDelete userId .registration]
    match e with
    | .passkey pe => ⟨.error pe, s1, c, ev1⟩
    | .other _ =>
      ⟨.error ⟨"Failed to finish registration", .verificationFailed⟩, s1, c, ev1⟩

/-! ## startRegistration (`server/register.ts`) -/

/-- A JavaScript `x || default` on an optional numeric timeout: a
missing or zero (falsy) value yields the default. -/
def timeoutOrDefault (t : Option Nat) (dflt : Nat) : Nat :=
  match t with
  | some v => if v = 0 then dflt else v
  | none => dflt

/-- Outcome of a `Start*` run over the registration flow: the returned
creation-options payload is represented by its challenge string. -/
structure StartRegOut where
  result : Except PasskeyError String
  store : ChallengeMap
  events : List Event
deriving DecidableEq, Repr

/-- `startRegistration`: max-passkeys guard, challenge generation
(`generate`, an oracle for `generateRegistrationOptions`, whose
`.error t` models a throw), challenge-record write.  The `catch` block
rethrows `PasskeyError`s and wraps anything else as `STORAGE_ERROR`. -/
def startRegistration (now : Nat) (userId : String)
    (regOpts : Option RegistrationStartOptions)
    (listFault : Option Nat) (generate : Except Nat String)
    (store : ChallengeMap) (creds : CredentialList) : StartRegOut :=
  match listFault with
  | some _ => ⟨.error ⟨"Failed to start registration", .storageError⟩, store, []⟩
  | none =>
    let existingCredentials := adapterListUserPasskeys creds userId
    let maxReached : Bool :=
      match (regOpts.bind (fun o => o.managementOptions)).bind
          (fun m => m.maxPasskeysPerUser) with
      | some m => m != 0 && existingCredentials.length ≥ m
      | none => false
    if maxReached then
      let m := ((regOpts.bind (fun o => o.managementOptions)).bind
        (fun mo => mo.maxPasskeysPerUser)).getD 0
      ⟨.error ⟨"Maximum number of passkeys (" ++ toString m ++
        ") reached for this user", .invalidInput⟩, store, []⟩
    else
      match generate with
      | .error _ =>
        ⟨.error ⟨"Failed to start registration", .storageError⟩, store,
          [.generateRegistrationCall]⟩
      | .ok challenge =>
        let timeout := timeoutOrDefault (regOpts.bind (fun o => o.timeout)) 300000
        let expiresAt := now + timeout
        let record : ChallengeRecord :=
          ⟨challengeKey userId .registration, userId, .registration, challenge, expiresAt⟩
        ⟨.ok challenge, store.setRecord record,
          [.generateRegistrationCall, .challengeSet record]⟩

/-! ## startAuthentication

Embedded from the repository's authentication-flow source that carries
the smart platform-authenticator strategy (the repository also contains
a plainer variant of `startAuthentication`, modelled below as
`startAuthenticationBasic`). -/

/-- Result of a successful `startAuthentication`: the options object
passed to `generateAuthenticationOptions` and the generated challenge. -/
structure AuthStartResult where
  optionsUsed : AuthRequestOptions
  challenge : String
deriving DecidableEq, Repr

/-- Outcome of a `startAuthentication` run. -/
structure StartAuthOut where
  result : Except PasskeyError AuthStartResult
  store : ChallengeMap
  events : List Event
deriving DecidableEq, Repr

/-- `startAuthentication` (smart-strategy variant): when any of the
user's credentials is platform-classified, the allow-list is omitted;
additionally, when the caller supplied no explicit `userVerification`,
verification is forced to `required` and the timeout capped at one
minute.  The `catch` block wraps unknown exceptions as `STORAGE_ERROR`. -/
def startAuthentication (now : Nat) (userId rpID : String)
    (authOpts : Option AuthenticationStartOptions)
    (listFault : Option Nat) (generate : Except Nat String)
    (store : ChallengeMap) (creds : CredentialList) : StartAuthOut :=
  match listFault with
  | some _ => ⟨.error ⟨"Failed to start authentication", .storageError⟩, store, []⟩
  | none =>
    let userCredentials := adapterListUserPasskeys creds userId
    if userCredentials.length = 0 then
      ⟨.error ⟨"No passkeys found for user", .credentialNotFound⟩, store, []⟩
    else
      let allowCredentials := userCredentials.map
        (fun c => AllowCredentialDescriptor.mk c.credentialId c.transports)
      let hasPlatformAuthenticators := userCredentials.any
        (fun c => c.authenticatorAttachment == some .platform)
      let suppliedUV := authOpts.bind (fun o => o.userVerification)
      let baseUV := suppliedUV.getD .preferred
      let baseTimeout := timeoutOrDefault (authOpts.bind (fun o => o.timeout)) 300000
      let applySmart : Bool := hasPlatformAuthenticators && suppliedUV.isNone
      let finalUserVerification := if applySmart then .required else baseUV
      let finalTimeout := if applySmart then min baseTimeout 60000 else baseTimeout
      let webAuthnOptions : AuthRequestOptions :=
        { rpID := rpID
          timeout := finalTimeout
          userVerification := finalUserVerification
          allowCredentials :=
            if hasPlatformAuthenticators then none else some allowCredentials }
      match generate with
      | .error _ =>
        ⟨.error ⟨"Failed to start authentication", .storageError⟩, store,
          [.generateAuthenticationCall webAuthnOptions]⟩
      | .ok challenge =>
        let expiresAt := now + finalTimeout
        let record : ChallengeRecord :=
          ⟨challengeKey userId .authentication, userId, .authentication,
            challenge, expiresAt⟩
        ⟨.ok ⟨webAuthnOptions, challenge⟩, store.setRecord record,
          [.generateAuthenticationCall webAuthnOptions, .challengeSet record]⟩

/-- The plainer `startAuthentication` variant
(`src/server/authenticate.ts`): always passes the explicit allow-list,
with `userVerification` defaulting to `preferred` and the timeout to
five minutes, and no platform-authenticator special case. -/
def startAuthenticationBasic (now : Nat) (userId rpID : String)
    (authOpts : Option AuthenticationStartOptions)
    (listFault : Option Nat) (generate : Except Nat String)
    (store : ChallengeMap) (creds : CredentialList) : StartAuthOut :=
  match listFault with
  | some _ => ⟨.error ⟨"Failed to start authentication", .storageError⟩, store, []⟩
  | none =>
    let userCredentials := adapterListUserPasskeys creds userId
    if userCredentials.length = 0 then
      ⟨.error ⟨"No passkeys found for user", .credentialNotFound⟩, store, []⟩
    else
      let allowCredentials := userCredentials.map
        (fun c => AllowCredentialDescriptor.mk c.credentialId c.transports)
      let timeout := timeoutOrDefault (authOpts.bind (fun o => o.timeout)) 300000
      let webAuthnOptions : AuthRequestOptions :=
        { rpID := rpID
          timeout := timeout
          userVerification :=
            (authOpts.bind (fun o => o.userVerification)).getD .preferred
          allowCredentials := some allowCredentials }
      match generate with
      | .error _ =>
        ⟨.error ⟨"Failed to start authentication", .storageError⟩, store,
          [.generateAuthenticationCall webAuthnOptions]⟩
      | .ok challenge =>
        let expiresAt := now + timeout
        let record : ChallengeRecord :=
          ⟨challengeKey userId .authentication, userId, .authentication,
            challenge, expiresAt⟩
        ⟨.ok ⟨webAuthnOptions, challenge⟩, store.setRecord record,
          [.generateAuthenticationCall webAuthnOptions, .challengeSet record]⟩

/-! ## Management entry points (`server/delete.ts`) -/

/-- Outcome of a `deletePasskey` run. -/
structure DeleteOut where
  result : Except PasskeyError Unit
  credentials : CredentialList
deriving DecidableEq, Repr

/-- The adapter's credential deletion (by local row id). -/
def adapterDeletePasskey (creds : CredentialList) (id : String) : CredentialList :=
  creds.filter (fun c => c.id ≠ id)

/-- `deletePasskey`: ownership-checked deletion; unknown exceptions
(injected via `findFault` on `adapter.findByCredentialId`) are wrapped
as `STORAGE_ERROR`. -/
def deletePasskey (userId credentialId : String) (findFault : Option Nat)
    (creds : CredentialList) : DeleteOut :=
  match findFault with
  | some _ => ⟨.error ⟨"Failed to delete passkey", .storageError⟩, creds⟩
  | none =>
    match findByCredentialId creds credentialId with
    | none => ⟨.error ⟨"Credential not found", .credentialNotFound⟩, creds⟩
    | some credential =>
      if credential.userId ≠ userId then
        ⟨.error ⟨"Credential does not belong to user", .verificationFailed⟩, creds⟩
      else
        ⟨.ok (), adapterDeletePasskey creds credential.id⟩

/-- `listUserPasskeys` entry point: adapter passthrough with unknown
exceptions (injected via `listFault`) wrapped as `STORAGE_ERROR`. -/
def listUserPasskeys (userId : String) (listFault : Option Nat)
    (creds : CredentialList) : Except PasskeyError CredentialList :=
  match listFault with
  | some _ => .error ⟨"Failed to list passkeys", .storageError⟩
  | none => .ok (adapterListUserPasskeys creds userId)

/-! ## RedisStore (`store/redis.ts`) -/

/-- Redis challenge key `"passkey:challenge:{userId}:{flow}"`. -/
def redisChallengeKey (userId : String) (flow : Flow) : String :=
  "passkey:challenge:" ++ userId ++ ":" ++ flow.toStr

/-- `RedisStore.set`'s TTL computation:
`Math.min(Math.max(Math.ceil((expiresAt - now) / 1000), 1), defaultTTL)`
(seconds; `defaultTTL` is 300 when the store is built with the default). -/
def redisFinalTTL (record : ChallengeRecord) (now : Nat) (defaultTTL : Nat) : Int :=
  let ttlSeconds : Int := ((record.expiresAt : Int) - (now : Int) + 999).fdiv 1000
  min (max ttlSeconds 1) (defaultTTL : Int)

/-- The `SET key value EX ttl` command issued by `RedisStore.set`
(the JSON payload is left opaque). -/
structure RedisSetCommand where
  key : String
  ex : Int
deriving DecidableEq, Repr

/-- `RedisStore.set` as the Redis command it issues. -/
def RedisStore.setCommand (record : ChallengeRecord) (now : Nat)
    (defaultTTL : Nat) : RedisSetCommand :=
  ⟨redisChallengeKey record.userId record.flow, redisFinalTTL record now defaultTTL⟩

/-! ## Store lemmas -/

/-- Deleting a challenge slot empties it. -/
theorem ChallengeMap.getRecord_delete (s : ChallengeMap) (u : String) (f : Flow) :
    (s.deleteRecord u f).getRecord u f = none := by
  unfold ChallengeMap.getRecord ChallengeMap.deleteRecord
  rw [Option.map_eq_none', List.find?_eq_none]
  intro p hp
  have h := List.mem_filter.mp hp
  simpa using h.2

/-- If the body of `finishAuthentication` returns normally, its
challenge-store component is the input store with the authentication
slot deleted. -/
theorem finishAuthenticationBody_ok_store (now : Nat) (userId respId : String)
    (findFault : Option Nat) (verify : Except Nat AuthenticationVerification)
    (store : ChallengeMap) (creds : CredentialList)
    (v : FinishResult) (s : ChallengeMap) (c : CredentialList) (ev : List Event)
    (h : finishAuthenticationBody now userId respId findFault verify store creds
          = (.ok v, s, c, ev)) :
    s = store.deleteRecord userId .authentication := by
  unfold finishAuthenticationBody at h
  repeat' first | split at h | simp only [] at h
  all_goals first
    | exact Except.noConfusion (congrArg Prod.fst h)
    | exact (congrArg (fun p => p.2.1) h).symm

/-- If the body of `finishRegistration` returns normally, its
challenge-store component is the input store with the registration slot
deleted. -/
theorem finishRegistrationBody_ok_store (now : Nat) (userId : String)
    (regOpts : Option RegistrationStartOptions) (freshId : String)
    (findFault listFault : Option Nat)
    (verify : Except Nat RegistrationVerification)
    (store : ChallengeMap) (creds : CredentialList)
    (v : FinishResult) (s : ChallengeMap) (c : CredentialList) (ev : List Event)
    (h : finishRegistrationBody now userId regOpts freshId findFault listFault
          verify store creds = (.ok v, s, c, ev)) :
    s = store.deleteRecord userId .registration := by
  unfold finishRegistrationBody at h
  repeat' first | split at h | simp only [] at h
  all_goals first
    | exact Except.noConfusion (congrArg Prod.fst h)
    | exact (congrArg (fun p => p.2.1) h).symm

/-- Every `finishAuthentication` run leaves the authentication
challenge slot empty. -/
theorem finishAuthentication_clears_challenge (now : Nat) (userId respId : String)
    (findFault : Option Nat) (verify : Except Nat AuthenticationVerification)
    (store : ChallengeMap) (creds : CredentialList) :
    (finishAuthentication now userId respId findFault verify store creds).store.getRecord
      userId .authentication = none := by
  unfold finishAuthentication
  split
  case _ v s c ev h =>
    rw [finishAuthenticationBody_ok_store now userId respId findFault verify
      store creds v s c ev h]
    exact ChallengeMap.getRecord_delete _ _ _
  case _ e s c ev _ =>
    cases e <;> exact ChallengeMap.getRecord_delete _ _ _

/-- Every `finishRegistration` run leaves the registration challenge
slot empty. -/
theorem finishRegistration_clears_challenge (now : Nat) (userId : String)
    (regOpts : Option RegistrationStartOptions) (freshId : String)
    (findFault listFault : Option Nat)
    (verify : Except Nat RegistrationVerification)
    (store : ChallengeMap) (creds : CredentialList) :
    (finishRegistration now userId regOpts freshId findFault listFault verify
      store creds).store.getRecord userId .registration = none := by
  unfold finishRegistration
  split
  case _ v s c ev h =>
    rw [finishRegistrationBody_ok_store now userId regOpts freshId findFault
      listFault verify store creds v s c ev h]
    exact ChallengeMap.getRecord_delete _ _ _
  case _ e s c ev _ =>
    cases e <;> exact ChallengeMap.getRecord_delete _ _ _

/-- With no pending authentication challenge, `finishAuthentication`
fails with `CHALLENGE_NOT_FOUND`. -/
theorem finishAuthentication_noChallenge (now : Nat) (userId respId : String)
    (findFault : Option Nat) (verify : Except Nat AuthenticationVerification)
    (store : ChallengeMap) (creds : CredentialList)
    (h : store.getRecord userId .authentication = none) :
    (finishAuthentication now userId respId findFault verify store creds).result
      = .error ⟨"Challenge not found or expired", .challengeNotFound⟩ := by
  simp [finishAuthentication, finishAuthenticationBody, h]

/-- With no pending registration challenge, `finishRegistration` fails
with `CHALLENGE_NOT_FOUND`. -/
theorem finishRegistration_noChallenge (now : Nat) (userId : String)
    (regOpts : Option RegistrationStartOptions) (freshId : String)
    (findFault listFault : Option Nat)
    (verify : Except Nat RegistrationVerification)
    (store : ChallengeMap) (creds : CredentialList)
    (h : store.getRecord userId .registration = none) :
    (finishRegistration now userId regOpts freshId findFault listFault verify
      store creds).result
      = .error ⟨"Challenge not found or expired", .challengeNotFound⟩ := by
  simp [finishRegistration, finishRegistrationBody, h]

/-! ## Claims -/

/-- C1: in a `finishAuthentication` run that reaches successful
verification, if the verifier's `newCounter` is strictly greater than
the stored credential's counter then the persisted counter is updated
(via `updateCounter`) to exactly `newCounter` and the returned
credential carries that counter; otherwise the credential store is left
unchanged and the call still returns `verified: true` with the
unchanged credential. -/
theorem finishAuthentication_counter_monotonicity
    (now : Nat) (userId respId : String)
    (verification : AuthenticationVerification)
    (store : ChallengeMap) (creds : CredentialList)
    (challengeRecord : ChallengeRecord) (sc : StoredCredential)
    (hget : store.getRecord userId .authentication = some challengeRecord)
    (hlive : ¬ now > challengeRecord.expiresAt)
    (hfind : findByCredentialId creds respId = some sc)
    (howner : sc.userId = userId)
    (hver : verification.verified = true) :
    (verification.newCounter > sc.counter →
      (finishAuthentication now userId respId none (.ok verification) store creds).result
        = .ok ⟨true, some { sc with counter := verification.newCounter }⟩ ∧
      (finishAuthentication now userId respId none (.ok verification) store creds).credentials
        = updateCounter creds sc.id verification.newCounter) ∧
    (verification.newCounter ≤ sc.counter →
      (finishAuthentication now userId respId none (.ok verification) store creds).result
        = .ok ⟨true, some sc⟩ ∧
      (finishAuthentication now userId respId none (.ok verification) store creds).credentials
        = creds) := by
  constructor
  · intro hgt
    simp [finishAuthentication, finishAuthenticationBody, hget, hlive, hfind,
      howner, hver, hgt]
  · intro hle
    simp [finishAuthentication, finishAuthenticationBody, hget, hlive, hfind,
      howner, hver, Nat.not_lt.mpr hle]

/-- C2: any `finishRegistration` or `finishAuthentication` call that
finds a pending challenge record leaves the slot deleted on every exit
path (the run is quantified over arbitrary verifier outcomes — success,
failed verification, or a thrown exception — and arbitrary injected
adapter faults), so a repeat of the same call against the resulting
state fails with `CHALLENGE_NOT_FOUND`. -/
theorem finish_challenge_single_use
    (now now' : Nat) (userId respId freshId : String)
    (regOpts : Option RegistrationStartOptions)
    (findFaultR listFaultR findFaultA : Option Nat)
    (verifyR : Except Nat RegistrationVerification)
    (verifyA : Except Nat AuthenticationVerification)
    (store : ChallengeMap) (creds : CredentialList)
    (hpendingR : (store.getRecord userId .registration).isSome)
    (hpendingA : (store.getRecord userId .authentication).isSome) :
    ((finishRegistration now userId regOpts freshId findFaultR listFaultR
        verifyR store creds).store.getRecord userId .registration = none ∧
      (finishRegistration now' userId regOpts freshId findFaultR listFaultR verifyR
          (finishRegistration now userId regOpts freshId findFaultR listFaultR
            verifyR store creds).store
          (finishRegistration now userId regOpts freshId findFaultR listFaultR
            verifyR store creds).credentials).result
        = .error ⟨"Challenge not found or expired", .challengeNotFound⟩) ∧
    ((finishAuthentication now userId respId findFaultA verifyA
        store creds).store.getRecord userId .authentication = none ∧
      (finishAuthentication now' userId respId findFaultA verifyA
          (finishAuthentication now userId respId findFaultA verifyA store creds).store
          (finishAuthentication now userId respId findFaultA verifyA
            store creds).credentials).result
        = .error ⟨"Challenge not found or expired", .challengeNotFound⟩) := by
  refine ⟨⟨?_, ?_⟩, ?_, ?_⟩
  · exact finishRegistration_clears_challenge now userId regOpts freshId
      findFaultR listFaultR verifyR store creds
  · exact finishRegistration_noChallenge now' userId regOpts freshId
      findFaultR listFaultR verifyR _ _
      (finishRegistration_clears_challenge now userId regOpts freshId
        findFaultR listFaultR verifyR store creds)
  · exact finishAuthentication_clears_challenge now userId respId
      findFaultA verifyA store creds
  · exact finishAuthentication_noChallenge now' userId respId findFaultA verifyA _ _
      (finishAuthentication_clears_challenge now userId respId
        findFaultA verifyA store creds)

/-- Witness for C2: concrete pending registration and authentication
challenges are consumed by one `Finish*` call and the repeat call fails
with `CHALLENGE_NOT_FOUND`. -/
theorem finish_challenge_single_use_witness :
    ((finishRegistration 50 "u1" none "f1" none none
        (.ok ⟨false, none⟩)
        [("u1:registration", ⟨"u1:registration", "u1", .registration, "chr", 100⟩),
         ("u1:authentication", ⟨"u1:authentication", "u1", .authentication, "cha", 100⟩)]
        []).store.getRecord "u1" .registration = none ∧
      (finishRegistration 60 "u1" none "f1" none none (.ok ⟨false, none⟩)
          (finishRegistration 50 "u1" none "f1" none none (.ok ⟨false, none⟩)
            [("u1:registration", ⟨"u1:registration", "u1", .registration, "chr", 100⟩),
             ("u1:authentication", ⟨"u1:authentication", "u1", .authentication, "cha", 100⟩)]
            []).store
          (finishRegistration 50 "u1" none "f1" none none (.ok ⟨false, none⟩)
            [("u1:registration", ⟨"u1:registration", "u1", .registration, "chr", 100⟩),
             ("u1:authentication", ⟨"u1:authentication", "u1", .authentication, "cha", 100⟩)]
            []).credentials).result
        = .error ⟨"Challenge not found or expired", .challengeNotFound⟩) ∧
    ((finishAuthentication 50 "u1" "cred9" none (.error 3)
        [("u1:registration", ⟨"u1:registration", "u1", .registration, "chr", 100⟩),
         ("u1:authentication", ⟨"u1:authentication", "u1", .authentication, "cha", 100⟩)]
        []).store.getRecord "u1" .authentication = none ∧
      (finishAuthentication 60 "u1" "cred9" none (.error 3)
          (finishAuthentication 50 "u1" "cred9" none (.error 3)
            [("u1:registration", ⟨"u1:registration", "u1", .registration, "chr", 100⟩),
             ("u1:authentication", ⟨"u1:authentication", "u1", .authentication, "cha", 100⟩)]
            []).store
          (finishAuthentication 50 "u1" "cred9" none (.error 3)
            [("u1:registration", ⟨"u1:registration", "u1", .registration, "chr", 100⟩),
             ("u1:authentication", ⟨"u1:authentication", "u1", .authentication, "cha", 100⟩)]
            []).credentials).result
        = .error ⟨"Challenge not found or expired", .challengeNotFound⟩) :=
  finish_challenge_single_use 50 60 "u1" "cred9" "f1" none none none none
    (.ok ⟨false, none⟩) (.error 3)
    [("u1:registration", ⟨"u1:registration", "u1", .registration, "chr", 100⟩),
     ("u1:authentication", ⟨"u1:authentication", "u1", .authentication, "cha", 100⟩)]
    [] (by decide) (by decide)

/-- C3: when the challenge record read for `(userId, flow)` (as still
physically held by the backing store) has `expiresAt` earlier than the
current time, both `Finish*` calls fail with `CHALLENGE_EXPIRED`,
delete the record, and never invoke the cryptographic verifier. -/
theorem finish_expired_challenge
    (now : Nat) (userId respId freshId : String)
    (regOpts : Option RegistrationStartOptions)
    (findFaultR listFaultR findFaultA : Option Nat)
    (verifyR : Except Nat RegistrationVerification)
    (verifyA : Except Nat AuthenticationVerification)
    (store : ChallengeMap) (creds : CredentialList) (r1 r2 : ChallengeRecord)
    (hgetR : store.getRecord userId .registration = some r1)
    (hexpR : r1.expiresAt < now)
    (hgetA : store.getRecord userId .authentication = some r2)
    (hexpA : r2.expiresAt < now) :
    ((finishRegistration now userId regOpts freshId findFaultR listFaultR
        verifyR store creds).result = .error ⟨"Challenge expired", .challengeExpired⟩ ∧
      (finishRegistration now userId regOpts freshId findFaultR listFaultR
        verifyR store creds).store.getRecord userId .registration = none ∧
      Event.verifyRegistrationCall ∉
        (finishRegistration now userId regOpts freshId findFaultR listFaultR
          verifyR store creds).events) ∧
    ((finishAuthentication now userId respId findFaultA verifyA store creds).result
        = .error ⟨"Challenge expired", .challengeExpired⟩ ∧
      (finishAuthentication now userId respId findFaultA verifyA
        store creds).store.getRecord userId .authentication = none ∧
      Event.verifyAuthenticationCall ∉
        (finishAuthentication now userId respId findFaultA verifyA store creds).events) := by
  refine ⟨⟨?_, ?_, ?_⟩, ?_, ?_, ?_⟩
  · simp [finishRegistration, finishRegistrationBody, hgetR, hexpR]
  · simp [finishRegistration, finishRegistrationBody, hgetR, hexpR,
      ChallengeMap.getRecord_delete]
  · simp [finishRegistration, finishRegistrationBody, hgetR, hexpR]
  · simp [finishAuthentication, finishAuthenticationBody, hgetA, hexpA]
  · simp [finishAuthentication, finishAuthenticationBody, hgetA, hexpA,
      ChallengeMap.getRecord_delete]
  · simp [finishAuthentication, finishAuthenticationBody, hgetA, hexpA]

/-- Witness for C3: a challenge that expired at time 100, read at time
101, is rejected as expired on both flows with no verifier call. -/
theorem finish_expired_challenge_witness :
    ((finishRegistration 101 "u1" none "f1" none none (.ok ⟨true, none⟩)
        [("u1:registration", ⟨"u1:registration", "u1", .registration, "chr", 100⟩),
         ("u1:authentication", ⟨"u1:authentication", "u1", .authentication, "cha", 100⟩)]
        []).result = .error ⟨"Challenge expired", .challengeExpired⟩ ∧
      (finishRegistration 101 "u1" none "f1" none none (.ok ⟨true, none⟩)
        [("u1:registration", ⟨"u1:registration", "u1", .registration, "chr", 100⟩),
         ("u1:authentication", ⟨"u1:authentication", "u1", .authentication, "cha", 100⟩)]
        []).store.getRecord "u1" .registration = none ∧
      Event.verifyRegistrationCall ∉
        (finishRegistration 101 "u1" none "f1" none none (.ok ⟨true, none⟩)
          [("u1:registration", ⟨"u1:registration", "u1", .registration, "chr", 100⟩),
           ("u1:authentication", ⟨"u1:authentication", "u1", .authentication, "cha", 100⟩)]
          []).events) ∧
    ((finishAuthentication 101 "u1" "cred1" none (.ok ⟨true, 7⟩)
        [("u1:registration", ⟨"u1:registration", "u1", .registration, "chr", 100⟩),
         ("u1:authentication", ⟨"u1:authentication", "u1", .authentication, "cha", 100⟩)]
        []).result = .error ⟨"Challenge expired", .challengeExpired⟩ ∧
      (finishAuthentication 101 "u1" "cred1" none (.ok ⟨true, 7⟩)
        [("u1:registration", ⟨"u1:registration", "u1", .registration, "chr", 100⟩),
         ("u1:authentication", ⟨"u1:authentication", "u1", .authentication, "cha", 100⟩)]
        []).store.getRecord "u1" .authentication = none ∧
      Event.verifyAuthenticationCall ∉
        (finishAuthentication 101 "u1" "cred1" none (.ok ⟨true, 7⟩)
          [("u1:registration", ⟨"u1:registration", "u1", .registration, "chr", 100⟩),
           ("u1:authentication", ⟨"u1:authentication", "u1", .authentication, "cha", 100⟩)]
          []).events) :=
  finish_expired_challenge 101 "u1" "cred1" "f1" none none none none
    (.ok ⟨true, none⟩) (.ok ⟨true, 7⟩)
    [("u1:registration", ⟨"u1:registration", "u1", .registration, "chr", 100⟩),
     ("u1:authentication", ⟨"u1:authentication", "u1", .authentication, "cha", 100⟩)]
    [] ⟨"u1:registration", "u1", .registration, "chr", 100⟩
    ⟨"u1:authentication", "u1", .authentication, "cha", 100⟩
    (by decide) (by decide) (by decide) (by decide)

/-- C4: when the credential looked up by the response's credential id
exists but belongs to a different user, `finishAuthentication` fails
with `VERIFICATION_FAILED` and no credential in the store is mutated
(in particular no counter update occurs). -/
theorem finishAuthentication_ownership_isolation
    (now : Nat) (userId respId : String)
    (verify : Except Nat AuthenticationVerification)
    (store : ChallengeMap) (creds : CredentialList)
    (challengeRecord : ChallengeRecord) (sc : StoredCredential)
    (hget : store.getRecord userId .authentication = some challengeRecord)
    (hlive : ¬ now > challengeRecord.expiresAt)
    (hfind : findByCredentialId creds respId = some sc)
    (hmismatch : sc.userId ≠ userId) :
    (finishAuthentication now userId respId none verify store creds).result
      = .error ⟨"Credential does not belong to user", .verificationFailed⟩ ∧
    (finishAuthentication now userId respId none verify store creds).credentials
      = creds ∧
    ∀ id n, Event.counterUpdate id n ∉
      (finishAuthentication now userId respId none verify store creds).events := by
  refine ⟨?_, ?_, fun id n => ?_⟩ <;>
    simp [finishAuthentication, finishAuthenticationBody, hget, hlive, hfind,
      hmismatch]

/-- Witness for C4: user `u1` replaying user `u2`'s credential fails
with `VERIFICATION_FAILED` and the credential store is untouched. -/
theorem finishAuthentication_ownership_isolation_witness :
    (finishAuthentication 50 "u1" "cred2" none (.ok ⟨true, 7⟩)
        [("u1:authentication", ⟨"u1:authentication", "u1", .authentication, "ch", 100⟩)]
        [⟨"id2", "u2", "cred2", "pk", 5, none, none, none, none, none, none, none⟩]).result
      = .error ⟨"Credential does not belong to user", .verificationFailed⟩ ∧
    (finishAuthentication 50 "u1" "cred2" none (.ok ⟨true, 7⟩)
        [("u1:authentication", ⟨"u1:authentication", "u1", .authentication, "ch", 100⟩)]
        [⟨"id2", "u2", "cred2", "pk", 5, none, none, none, none, none, none, none⟩]).credentials
      = [⟨"id2", "u2", "cred2", "pk", 5, none, none, none, none, none, none, none⟩] ∧
    ∀ id n, Event.counterUpdate id n ∉
      (finishAuthentication 50 "u1" "cred2" none (.ok ⟨true, 7⟩)
        [("u1:authentication", ⟨"u1:authentication", "u1", .authentication, "ch", 100⟩)]
        [⟨"id2", "u2", "cred2", "pk", 5, none, none, none, none, none, none, none⟩]).events :=
  finishAuthentication_ownership_isolation 50 "u1" "cred2" (.ok ⟨true, 7⟩)
    [("u1:authentication", ⟨"u1:authentication", "u1", .authentication, "ch", 100⟩)]
    [⟨"id2", "u2", "cred2", "pk", 5, none, none, none, none, none, none, none⟩]
    ⟨"u1:authentication", "u1", .authentication, "ch", 100⟩
    ⟨"id2", "u2", "cred2", "pk", 5, none, none, none, none, none, none, none⟩
    (by decide) (by decide) (by decide) (by decide)

/-- C5 counterexample: a non-`PasskeyError` exception thrown by the
verifier inside `finishAuthentication` is re-wrapped with code
`VERIFICATION_FAILED`, not `STORAGE_ERROR` as the claim states. -/
theorem storage_error_wrapping_counterexample :
    (finishAuthentication 50 "u1" "cred1" none (.error 42)
        [("u1:authentication", ⟨"u1:authentication", "u1", .authentication, "ch", 100⟩)]
        [⟨"id1", "u1", "cred1", "pk", 5, none, none, none, none, none, none, none⟩]).result
      = .error ⟨"Failed to finish authentication", .verificationFailed⟩ ∧
    ErrorCode.verificationFailed ≠ ErrorCode.storageError := by
  exact ⟨by decide, by decide⟩

/-- C5 (amended): each of the six entry points re-wraps a thrown
non-`PasskeyError` exception into a `PasskeyError` — with code
`STORAGE_ERROR` in `startRegistration`, `startAuthentication`,
`listUserPasskeys` and `deletePasskey`, and with code
`VERIFICATION_FAILED` in `finishRegistration` and
`finishAuthentication` — so the caller never sees a raw exception. -/
theorem error_wrapping_policy
    (now : Nat) (userId respId freshId rpID credentialId : String)
    (regOpts : Option RegistrationStartOptions)
    (authOpts : Option AuthenticationStartOptions)
    (t1 t2 t3 t4 t5 t6 : Nat)
    (store : ChallengeMap) (creds : CredentialList)
    (r1 r2 : ChallengeRecord) (sc : StoredCredential)
    (genR genA : Except Nat String)
    (hgetR : store.getRecord userId .registration = some r1)
    (hliveR : ¬ now > r1.expiresAt)
    (hgetA : store.getRecord userId .authentication = some r2)
    (hliveA : ¬ now > r2.expiresAt)
    (hfind : findByCredentialId creds respId = some sc)
    (howner : sc.userId = userId) :
    (startRegistration now userId regOpts (some t1) genR store creds).result
      = .error ⟨"Failed to start registration", .storageError⟩ ∧
    (startAuthentication now userId rpID authOpts (some t2) genA store creds).result
      = .error ⟨"Failed to start authentication", .storageError⟩ ∧
    listUserPasskeys userId (some t3) creds
      = .error ⟨"Failed to list passkeys", .storageError⟩ ∧
    (deletePasskey userId credentialId (some t4) creds).result
      = .error ⟨"Failed to delete passkey", .storageError⟩ ∧
    (finishRegistration now userId regOpts freshId (some t5) none
        (.ok ⟨true, some ⟨⟨"cid", "pk", 0, none⟩, false, "multiDevice"⟩⟩)
        store creds).result
      = .error ⟨"Failed to finish registration", .verificationFailed⟩ ∧
    (finishAuthentication now userId respId none (.error t6) store creds).result
      = .error ⟨"Failed to finish authentication", .verificationFailed⟩ := by
  refine ⟨?_, ?_, ?_, ?_, ?_, ?_⟩
  · simp [startRegistration]
  · simp [startAuthentication]
  · simp [listUserPasskeys]
  · simp [deletePasskey]
  · simp [finishRegistration, finishRegistrationBody, hgetR, hliveR]
  · simp [finishAuthentication, finishAuthenticationBody, hgetA, hliveA, hfind,
      howner]

/-- Witness for C5 (amended): concrete thrown exceptions in each of the
six entry points produce the stated `PasskeyError`s. -/
theorem error_wrapping_policy_witness :
    (startRegistration 50 "u1" none (some 1) (.ok "ch")
        [("u1:registration", ⟨"u1:registration", "u1", .registration, "chr", 100⟩),
         ("u1:authentication", ⟨"u1:authentication", "u1", .authentication, "cha", 100⟩)]
        [⟨"id1", "u1", "cred1", "pk", 5, none, none, none, none, none, none, none⟩]).result
      = .error ⟨"Failed to start registration", .storageError⟩ ∧
    (startAuthentication 50 "u1" "rp" none (some 2) (.ok "ch")
        [("u1:registration", ⟨"u1:registration", "u1", .registration, "chr", 100⟩),
         ("u1:authentication", ⟨"u1:authentication", "u1", .authentication, "cha", 100⟩)]
        [⟨"id1", "u1", "cred1", "pk", 5, none, none, none, none, none, none, none⟩]).result
      = .error ⟨"Failed to start authentication", .storageError⟩ ∧
    listUserPasskeys "u1" (some 3)
        [⟨"id1", "u1", "cred1", "pk", 5, none, none, none, none, none, none, none⟩]
      = .error ⟨"Failed to list passkeys", .storageError⟩ ∧
    (deletePasskey "u1" "cred1" (some 4)
        [⟨"id1", "u1", "cred1", "pk", 5, none, none, none, none, none, none, none⟩]).result
      = .error ⟨"Failed to delete passkey", .storageError⟩ ∧
    (finishRegistration 50 "u1" none "f1" (some 5) none
        (.ok ⟨true, some ⟨⟨"cid", "pk", 0, none⟩, false, "multiDevice"⟩⟩)
        [("u1:registration", ⟨"u1:registration", "u1", .registration, "chr", 100⟩),
         ("u1:authentication", ⟨"u1:authentication", "u1", .authentication, "cha", 100⟩)]
        [⟨"id1", "u1", "cred1", "pk", 5, none, none, none, none, none, none, none⟩]).result
      = .error ⟨"Failed to finish registration", .verificationFailed⟩ ∧
    (finishAuthentication 50 "u1" "cred1" none (.error 6)
        [("u1:registration", ⟨"u1:registration", "u1", .registration, "chr", 100⟩),
         ("u1:authentication", ⟨"u1:authentication", "u1", .authentication, "cha", 100⟩)]
        [⟨"id1", "u1", "cred1", "pk", 5, none, none, none, none, none, none, none⟩]).result
      = .error ⟨"Failed to finish authentication", .verificationFailed⟩ :=
  error_wrapping_policy 50 "u1" "cred1" "f1" "rp" "cred1" none none 1 2 3 4 5 6
    [("u1:registration", ⟨"u1:registration", "u1", .registration, "chr", 100⟩),
     ("u1:authentication", ⟨"u1:authentication", "u1", .authentication, "cha", 100⟩)]
    [⟨"id1", "u1", "cred1", "pk", 5, none, none, none, none, none, none, none⟩]
    ⟨"u1:registration", "u1", .registration, "chr", 100⟩
    ⟨"u1:authentication", "u1", .authentication, "cha", 100⟩
    ⟨"id1", "u1", "cred1", "pk", 5, none, none, none, none, none, none, none⟩
    (.ok "ch") (.ok "ch")
    (by decide) (by decide) (by decide) (by decide) (by decide) (by decide)

/-- C6 counterexample: with a platform credential on file but an
explicitly supplied `userVerification` of `discouraged` and a
configured timeout of 300000 ms, `startAuthentication` omits the
allow-list yet passes `userVerification = discouraged` (not `required`)
and timeout 300000 (not `min(300000, 60000) = 60000`): the smart
strategy is skipped whenever the caller supplied `userVerification`. -/
theorem startAuthentication_platform_counterexample :
    (startAuthentication 0 "u1" "rp" (some ⟨some 300000, some .discouraged⟩)
        none (.ok "ch") []
        [⟨"id1", "u1", "credP", "pk", 0, none, none, none, some .platform,
          none, none, none⟩]).result
      = .ok ⟨⟨"rp", 300000, .discouraged, none⟩, "ch"⟩ ∧
    (300000 : Nat) ≠ 60000 ∧
    UserVerification.discouraged ≠ UserVerification.required := by
  exact ⟨by decide, by decide, by decide⟩

/-- C6 (amended): when at least one of the user's credentials is
platform-classified, `startAuthentication` omits the explicit
allow-list; if additionally the caller supplied no explicit
`userVerification`, verification is forced to `required` and the
timeout is `min(configured timeout, 60000)`, while an explicitly
supplied `userVerification` is used as-is with the configured timeout
uncapped.  With no platform credential, an explicit allow-list of all
the user's credential ids and transports is passed, `userVerification`
defaults to `preferred`, and the timeout defaults to 300000 ms. -/
theorem startAuthentication_platform_heuristic
    (now : Nat) (userId rpID challenge : String)
    (authOpts : Option AuthenticationStartOptions)
    (store : ChallengeMap) (creds : CredentialList)
    (hne : adapterListUserPasskeys creds userId ≠ []) :
    ∃ res,
      (startAuthentication now userId rpID authOpts none (.ok challenge)
        store creds).result = .ok res ∧
      res.challenge = challenge ∧
      ((adapterListUserPasskeys creds userId).any
          (fun c => c.authenticatorAttachment == some .platform) = true →
        res.optionsUsed.allowCredentials = none ∧
        ((authOpts.bind fun o => o.userVerification) = none →
          res.optionsUsed.userVerification = .required ∧
          res.optionsUsed.timeout
            = min (timeoutOrDefault (authOpts.bind fun o => o.timeout) 300000) 60000) ∧
        (∀ uv, (authOpts.bind fun o => o.userVerification) = some uv →
          res.optionsUsed.userVerification = uv ∧
          res.optionsUsed.timeout
            = timeoutOrDefault (authOpts.bind fun o => o.timeout) 300000)) ∧
      ((adapterListUserPasskeys creds userId).any
          (fun c => c.authenticatorAttachment == some .platform) = false →
        res.optionsUsed.allowCredentials
          = some ((adapterListUserPasskeys creds userId).map
              fun c => ⟨c.credentialId, c.transports⟩) ∧
        res.optionsUsed.userVerification
          = ((authOpts.bind fun o => o.userVerification).getD .preferred) ∧
        res.optionsUsed.timeout
          = timeoutOrDefault (authOpts.bind fun o => o.timeout) 300000) := by
  have hlen : ¬ (adapterListUserPasskeys creds userId).length = 0 := by
    simpa [List.length_eq_zero] using hne
  cases hplat0 : (adapterListUserPasskeys creds userId).any
      (fun c => c.authenticatorAttachment == some .platform) with
  | true =>
    cases huv : (authOpts.bind fun o => o.userVerification) with
    | none =>
      refine ⟨⟨⟨rpID,
          min (timeoutOrDefault (authOpts.bind fun o => o.timeout) 300000) 60000,
          .required, none⟩, challenge⟩, ?_, rfl, ?_, ?_⟩
      · simp [startAuthentication, hlen, hplat0, huv]
      · exact fun _ => ⟨rfl, fun _ => ⟨rfl, rfl⟩,
          fun uv huv2 => Option.noConfusion huv2⟩
      · intro hfalse
        exact Bool.noConfusion hfalse
    | some uv =>
      refine ⟨⟨⟨rpID,
          timeoutOrDefault (authOpts.bind fun o => o.timeout) 300000,
          uv, none⟩, challenge⟩, ?_, rfl, ?_, ?_⟩
      · simp [startAuthentication, hlen, hplat0, huv]
      · refine fun _ => ⟨rfl, fun hnone => Option.noConfusion hnone,
          fun uv2 huv2 => ?_⟩
        cases huv2
        exact ⟨rfl, rfl⟩
      · intro hfalse
        exact Bool.noConfusion hfalse
  | false =>
    refine ⟨⟨⟨rpID,
        timeoutOrDefault (authOpts.bind fun o => o.timeout) 300000,
        (authOpts.bind fun o => o.userVerification).getD .preferred,
        some ((adapterListUserPasskeys creds userId).map
          fun c => ⟨c.credentialId, c.transports⟩)⟩, challenge⟩, ?_, rfl, ?_, ?_⟩
    · simp [startAuthentication, hlen, hplat0]
    · intro htrue
      exact Bool.noConfusion htrue
    · exact fun _ => ⟨rfl, rfl, rfl⟩

/-- Witness for C6 (amended): one platform credential and no explicit
`userVerification` yields no allow-list, `required` verification, and a
60000 ms timeout. -/
theorem startAuthentication_platform_heuristic_witness :
    ∃ res,
      (startAuthentication 0 "u1" "rp" none none (.ok "ch") []
        [⟨"id1", "u1", "credP", "pk", 0, none, none, none, some .platform,
          none, none, none⟩]).result = .ok res ∧
      res.challenge = "ch" ∧
      ((adapterListUserPasskeys
          [⟨"id1", "u1", "credP", "pk", 0, none, none, none, some .platform,
            none, none, none⟩] "u1").any
          (fun c => c.authenticatorAttachment == some .platform) = true →
        res.optionsUsed.allowCredentials = none ∧
        ((Option.none.bind fun o : AuthenticationStartOptions => o.userVerification) = none →
          res.optionsUsed.userVerification = .required ∧
          res.optionsUsed.timeout
            = min (timeoutOrDefault
                (Option.none.bind fun o : AuthenticationStartOptions => o.timeout) 300000) 60000) ∧
        (∀ uv, (Option.none.bind fun o : AuthenticationStartOptions => o.userVerification) = some uv →
          res.optionsUsed.userVerification = uv ∧
          res.optionsUsed.timeout
            = timeoutOrDefault
                (Option.none.bind fun o : AuthenticationStartOptions => o.timeout) 300000)) ∧
      ((adapterListUserPasskeys
          [⟨"id1", "u1", "credP", "pk", 0, none, none, none, some .platform,
            none, none, none⟩] "u1").any
          (fun c => c.authenticatorAttachment == some .platform) = false →
        res.optionsUsed.allowCredentials
          = some ((adapterListUserPasskeys
              [⟨"id1", "u1", "credP", "pk", 0, none, none, none, some .platform,
                none, none, none⟩] "u1").map
              fun c => ⟨c.credentialId, c.transports⟩) ∧
        res.optionsUsed.userVerification
          = ((Option.none.bind fun o : AuthenticationStartOptions => o.userVerification).getD .preferred) ∧
        res.optionsUsed.timeout
          = timeoutOrDefault
              (Option.none.bind fun o : AuthenticationStartOptions => o.timeout) 300000) :=
  startAuthentication_platform_heuristic 0 "u1" "rp" "ch" none []
    [⟨"id1", "u1", "credP", "pk", 0, none, none, none, some .platform,
      none, none, none⟩]
    (by decide)

/-- C7 counterexample: with `maxPasskeysPerUser = 0` and the user
already owning 0 (that is, `N` or more) credentials, `startRegistration`
does not fail — a zero limit is falsy in the source's truthiness guard,
so the call succeeds and writes a challenge record. -/
theorem startRegistration_maxPasskeys_counterexample :
    (startRegistration 0 "u1"
        (some ⟨none, none, none, none, some ⟨some 0, none⟩⟩)
        none (.ok "ch") [] []).result = .ok "ch" ∧
    (startRegistration 0 "u1"
        (some ⟨none, none, none, none, some ⟨some 0, none⟩⟩)
        none (.ok "ch") [] []).store.getRecord "u1" .registration
      = some ⟨"u1:registration", "u1", .registration, "ch", 300000⟩ ∧
    (adapterListUserPasskeys [] "u1").length ≥ 0 := by
  exact ⟨by decide, by decide, by decide⟩

/-- C7 (amended): with `maxPasskeysPerUser = N` for `N ≥ 1` and the
user already owning `N` (or more) stored credentials,
`startRegistration` fails with `INVALID_INPUT` before the challenge
generator is invoked and before any `ChallengeRecord` is written (no
events at all; a zero `maxPasskeysPerUser` is treated as unset). -/
theorem startRegistration_maxPasskeys_guard
    (now : Nat) (userId : String) (regOpts : Option RegistrationStartOptions)
    (generate : Except Nat String) (store : ChallengeMap)
    (creds : CredentialList) (m : Nat)
    (hm : ((regOpts.bind fun o => o.managementOptions).bind
        fun mo => mo.maxPasskeysPerUser) = some m)
    (hpos : 1 ≤ m)
    (hcount : m ≤ (adapterListUserPasskeys creds userId).length) :
    (startRegistration now userId regOpts none generate store creds).result
      = .error ⟨"Maximum number of passkeys (" ++ toString m ++
          ") reached for this user", .invalidInput⟩ ∧
    (startRegistration now userId regOpts none generate store creds).store
      = store ∧
    (startRegistration now userId regOpts none generate store creds).events
      = [] := by
  have hm0 : m ≠ 0 := Nat.one_le_iff_ne_zero.mp hpos
  refine ⟨?_, ?_, ?_⟩ <;> simp [startRegistration, hm, hm0, hcount]

/-- Witness for C7 (amended): limit 1 and one existing credential fail
with `INVALID_INPUT`, the challenge store untouched. -/
theorem startRegistration_maxPasskeys_guard_witness :
    (startRegistration 0 "u1"
        (some ⟨none, none, none, none, some ⟨some 1, none⟩⟩)
        none (.ok "ch") []
        [⟨"id1", "u1", "cred1", "pk", 5, none, none, none, none, none, none, none⟩]).result
      = .error ⟨"Maximum number of passkeys (" ++ toString 1 ++
          ") reached for this user", .invalidInput⟩ ∧
    (startRegistration 0 "u1"
        (some ⟨none, none, none, none, some ⟨some 1, none⟩⟩)
        none (.ok "ch") []
        [⟨"id1", "u1", "cred1", "pk", 5, none, none, none, none, none, none, none⟩]).store
      = [] ∧
    (startRegistration 0 "u1"
        (some ⟨none, none, none, none, some ⟨some 1, none⟩⟩)
        none (.ok "ch") []
        [⟨"id1", "u1", "cred1", "pk", 5, none, none, none, none, none, none, none⟩]).events
      = [] :=
  startRegistration_maxPasskeys_guard 0 "u1"
    (some ⟨none, none, none, none, some ⟨some 1, none⟩⟩) (.ok "ch") []
    [⟨"id1", "u1", "cred1", "pk", 5, none, none, none, none, none, none, none⟩]
    1 (by decide) (by decide) (by decide)

/-- C8: the attachment classification applied by `finishRegistration`
yields `platform` iff the transports contain `"internal"`, or the
credential device type is `singleDevice`, or the supplied device info
matches the platform signature table (macOS+Mac, iOS+iPhone/iPad,
iPadOS+iPad, Windows+Windows PC); otherwise `cross-platform`. -/
theorem classifyAttachment_platform_iff
    (transports : Option (List String)) (credentialDeviceType : String)
    (deviceInfo : Option PasskeyDeviceInfo) :
    classifyAttachment transports credentialDeviceType deviceInfo = .platform ↔
      ((∃ ts, transports = some ts ∧ "internal" ∈ ts) ∨
       credentialDeviceType = "singleDevice" ∨
       (∃ d, deviceInfo = some d ∧
         ((d.os = some "macOS" ∧ d.deviceType = some "Mac") ∨
          (d.os = some "iOS" ∧
            (d.deviceType = some "iPhone" ∨ d.deviceType = some "iPad")) ∨
          (d.os = some "iPadOS" ∧ d.deviceType = some "iPad") ∨
          (d.os = some "Windows" ∧ d.deviceType = some "Windows PC")))) := by
  unfold classifyAttachment
  cases transports <;> cases deviceInfo <;>
    (split <;> simp_all <;> tauto)

/-- C9: when `preventDuplicateAuthenticators` is not explicitly
`false`, the new credential classifies as platform, and the user
already owns a platform credential that conflicts — same
`(deviceType, os)` when device info is recorded on both sides, and
unconditionally when it is missing on either side —
`finishRegistration` fails with `INVALID_INPUT` and no credential is
persisted. -/
theorem finishRegistration_platform_duplicate_guard
    (now : Nat) (userId freshId : String)
    (regOpts : Option RegistrationStartOptions)
    (info : RegistrationInfo)
    (store : ChallengeMap) (creds : CredentialList)
    (r : ChallengeRecord) (existing : StoredCredential)
    (hget : store.getRecord userId .registration = some r)
    (hlive : ¬ now > r.expiresAt)
    (hnew : findByCredentialId creds info.credential.id = none)
    (hprevent : ((regOpts.bind fun o => o.managementOptions).bind
        fun m => m.preventDuplicateAuthenticators) ≠ some false)
    (hplat : classifyAttachment info.credential.transports
        info.credentialDeviceType (regOpts.bind fun o => o.deviceInfo)
        = .platform)
    (hmem : existing ∈ adapterListUserPasskeys creds userId)
    (hexplat : existing.authenticatorAttachment = some .platform)
    (hconf : ∀ edi ndi, existing.deviceInfo = some edi →
      (regOpts.bind fun o => o.deviceInfo) = some ndi →
      edi.deviceType = ndi.deviceType ∧ edi.os = ndi.os) :
    (finishRegistration now userId regOpts freshId none none
        (.ok ⟨true, some info⟩) store creds).result
      = .error ⟨dupMessage (regOpts.bind fun o => o.deviceInfo), .invalidInput⟩ ∧
    (finishRegistration now userId regOpts freshId none none
        (.ok ⟨true, some info⟩) store creds).credentials = creds ∧
    ∀ c, Event.credentialCreate c ∉
      (finishRegistration now userId regOpts freshId none none
        (.ok ⟨true, some info⟩) store creds).events := by
  have hdup : isDuplicateOf .platform (regOpts.bind fun o => o.deviceInfo)
      existing = true := by
    unfold isDuplicateOf
    rw [if_pos (by simp [hexplat])]
    cases hedi : existing.deviceInfo with
    | none => rfl
    | some edi =>
      cases hndi : (regOpts.bind fun o => o.deviceInfo) with
      | none => rfl
      | some ndi =>
        have h := hconf edi ndi hedi hndi
        simp [h.1, h.2]
  have hany : (adapterListUserPasskeys creds userId).any
      (isDuplicateOf .platform (regOpts.bind fun o => o.deviceInfo)) = true :=
    List.any_eq_true.mpr ⟨existing, hmem, hdup⟩
  have hpr : (((regOpts.bind fun o => o.managementOptions).bind
      fun m => m.preventDuplicateAuthenticators) != some false) = true :=
    bne_iff_ne.mpr hprevent
  refine ⟨?_, ?_, fun c => ?_⟩ <;>
    simp [finishRegistration, finishRegistrationBody, hget, hlive, hnew,
      hplat, hpr, hany]

/-- Witness for C9: a second Mac platform passkey for the same user and
device signature is rejected with `INVALID_INPUT` and nothing is
persisted. -/
theorem finishRegistration_platform_duplicate_guard_witness :
    (finishRegistration 50 "u1"
        (some ⟨none, none, none, some ⟨some "Mac", some "macOS", none, none⟩, none⟩)
        "f1" none none
        (.ok ⟨true, some ⟨⟨"credNew", "pk", 0, some ["internal"]⟩, false, "multiDevice"⟩⟩)
        [("u1:registration", ⟨"u1:registration", "u1", .registration, "chr", 100⟩)]
        [⟨"id1", "u1", "credOld", "pk", 5, none, none, none, some .platform,
          some ⟨some "Mac", some "macOS", none, none⟩, none, none⟩]).result
      = .error ⟨dupMessage (some ⟨some "Mac", some "macOS", none, none⟩),
          .invalidInput⟩ ∧
    (finishRegistration 50 "u1"
        (some ⟨none, none, none, some ⟨some "Mac", some "macOS", none, none⟩, none⟩)
        "f1" none none
        (.ok ⟨true, some ⟨⟨"credNew", "pk", 0, some ["internal"]⟩, false, "multiDevice"⟩⟩)
        [("u1:registration", ⟨"u1:registration", "u1", .registration, "chr", 100⟩)]
        [⟨"id1", "u1", "credOld", "pk", 5, none, none, none, some .platform,
          some ⟨some "Mac", some "macOS", none, none⟩, none, none⟩]).credentials
      = [⟨"id1", "u1", "credOld", "pk", 5, none, none, none, some .platform,
          some ⟨some "Mac", some "macOS", none, none⟩, none, none⟩] ∧
    ∀ c, Event.credentialCreate c ∉
      (finishRegistration 50 "u1"
        (some ⟨none, none, none, some ⟨some "Mac", some "macOS", none, none⟩, none⟩)
        "f1" none none
        (.ok ⟨true, some ⟨⟨"credNew", "pk", 0, some ["internal"]⟩, false, "multiDevice"⟩⟩)
        [("u1:registration", ⟨"u1:registration", "u1", .registration, "chr", 100⟩)]
        [⟨"id1", "u1", "credOld", "pk", 5, none, none, none, some .platform,
          some ⟨some "Mac", some "macOS", none, none⟩, none, none⟩]).events :=
  finishRegistration_platform_duplicate_guard 50 "u1" "f1"
    (some ⟨none, none, none, some ⟨some "Mac", some "macOS", none, none⟩, none⟩)
    ⟨⟨"credNew", "pk", 0, some ["internal"]⟩, false, "multiDevice"⟩
    [("u1:registration", ⟨"u1:registration", "u1", .registration, "chr", 100⟩)]
    [⟨"id1", "u1", "credOld", "pk", 5, none, none, none, some .platform,
      some ⟨some "Mac", some "macOS", none, none⟩, none, none⟩]
    ⟨"u1:registration", "u1", .registration, "chr", 100⟩
    ⟨"id1", "u1", "credOld", "pk", 5, none, none, none, some .platform,
      some ⟨some "Mac", some "macOS", none, none⟩, none, none⟩
    (by decide) (by decide) (by decide) (by decide) (by decide) (by decide)
    (by decide)
    (by intro edi ndi hedi hndi
        injection hedi with h1
        injection hndi with h2
        subst h1
        subst h2
        exact ⟨rfl, rfl⟩)

/-- C10: `RedisStore.set` uses a TTL of
`min(max(ceil((expiresAt - now)/1000), 1), defaultTTL)` seconds (the
store's `defaultTTL` parameter defaults to 300 at construction): the
first conjunct characterises the computed `ttlSeconds` as exactly the
ceiling of `(expiresAt - now)/1000`, the second gives the clamped TTL
sent to Redis, and the rest show that for a record whose `expiresAt`
lies more than `defaultTTL` seconds in the future the TTL is clamped to
`defaultTTL`, so Redis may evict the entry strictly before `expiresAt`. -/
theorem redisStore_set_ttl (record : ChallengeRecord) (now defaultTTL : Nat)
    (hfar : (record.expiresAt : Int) - (now : Int) > (defaultTTL : Int) * 1000) :
    (1000 * ((((record.expiresAt : Int) - (now : Int) + 999).fdiv 1000) - 1)
        < (record.expiresAt : Int) - (now : Int) ∧
      (record.expiresAt : Int) - (now : Int)
        ≤ 1000 * (((record.expiresAt : Int) - (now : Int) + 999).fdiv 1000)) ∧
    (RedisStore.setCommand record now defaultTTL).ex
      = min (max (((record.expiresAt : Int) - (now : Int) + 999).fdiv 1000) 1)
          (defaultTTL : Int) ∧
    (RedisStore.setCommand record now defaultTTL).ex = (defaultTTL : Int) ∧
    (now : Int) + (RedisStore.setCommand record now defaultTTL).ex * 1000
      < (record.expiresAt : Int) := by
  have hb : (((record.expiresAt : Int) - (now : Int)) + 999).fdiv 1000
      = (((record.expiresAt : Int) - (now : Int)) + 999) / 1000 := by
    rw [Int.fdiv_eq_ediv] <;> omega
  refine ⟨⟨?_, ?_⟩, rfl, ?_, ?_⟩ <;>
    simp only [RedisStore.setCommand, redisFinalTTL, hb] <;> omega

/-- Witness for C10: a record expiring 1000 seconds out, stored with
the default 300-second TTL, is clamped to 300 seconds and so leaves
Redis 700 seconds before its nominal expiry. -/
theorem redisStore_set_ttl_witness :
    (1000 * (((((1000000 : Nat) : Int) - ((0 : Nat) : Int) + 999).fdiv 1000) - 1)
        < ((1000000 : Nat) : Int) - ((0 : Nat) : Int) ∧
      ((1000000 : Nat) : Int) - ((0 : Nat) : Int)
        ≤ 1000 * ((((1000000 : Nat) : Int) - ((0 : Nat) : Int) + 999).fdiv 1000)) ∧
    (RedisStore.setCommand ⟨"u1:registration", "u1", .registration, "ch", 1000000⟩
        0 300).ex
      = min (max ((((1000000 : Nat) : Int) - ((0 : Nat) : Int) + 999).fdiv 1000) 1)
          ((300 : Nat) : Int) ∧
    (RedisStore.setCommand ⟨"u1:registration", "u1", .registration, "ch", 1000000⟩
        0 300).ex = ((300 : Nat) : Int) ∧
    ((0 : Nat) : Int) +
        (RedisStore.setCommand ⟨"u1:registration", "u1", .registration, "ch", 1000000⟩
          0 300).ex * 1000
      < ((1000000 : Nat) : Int) :=
  redisStore_set_ttl ⟨"u1:registration", "u1", .registration, "ch", 1000000⟩
    0 300 (by decide)

/-- Witness for C1: a concrete successful authentication with stored
counter 5 and `newCounter` 7 persists and returns counter 7. -/
theorem finishAuthentication_counter_monotonicity_witness :
    (finishAuthentication 50 "u1" "cred1" none (.ok ⟨true, 7⟩)
        [("u1:authentication", ⟨"u1:authentication", "u1", .authentication, "ch", 100⟩)]
        [⟨"id1", "u1", "cred1", "pk", 5, none, none, none, none, none, none, none⟩]).result
      = .ok ⟨true, some ⟨"id1", "u1", "cred1", "pk", 7, none, none, none, none, none, none, none⟩⟩ ∧
    (finishAuthentication 50 "u1" "cred1" none (.ok ⟨true, 7⟩)
        [("u1:authentication", ⟨"u1:authentication", "u1", .authentication, "ch", 100⟩)]
        [⟨"id1", "u1", "cred1", "pk", 5, none, none, none, none, none, none, none⟩]).credentials
      = updateCounter
          [⟨"id1", "u1", "cred1", "pk", 5, none, none, none, none, none, none, none⟩] "id1" 7 :=
  finishAuthentication_counter_monotonicity 50 "u1" "cred1" ⟨true, 7⟩
    [("u1:authentication", ⟨"u1:authentication", "u1", .authentication, "ch", 100⟩)]
    [⟨"id1", "u1", "cred1", "pk", 5, none, none, none, none, none, none, none⟩]
    ⟨"u1:authentication", "u1", .authentication, "ch", 100⟩
    ⟨"id1", "u1", "cred1", "pk", 5, none, none, none, none, none, none, none⟩
    (by decide) (by decide) (by decide) (by decide) (by decide)
    |>.1 (by decide)

end Passkey
